import Mathlib

/-!
Shallow embedding of the Vivek300705/learning-management-system front-end,
covering the parts of the code the verified claims are about:

* the Course Builder component (`client/src/components/pages/educator/AddCourse.jsx`):
  its draft state and the handlers `handleChapter`, `handleLecture`,
  `handleSaveLecture`, `handleImageChange`, `handleSubmit`;
* the shared application context (`AppContext.jsx`): `fetchUserData` and the
  derived-metric helpers `calculateRating` and `calculateNoOfLectures`.

Modelling conventions:
* `uniqid()` and `URL.createObjectURL` are external generators; the fresh id /
  fresh object URL is passed to the embedded handler as an argument.
* JavaScript numbers in this code only ever hold exact small values, so they
  are modelled as `ℚ` (integers/decimals), and JS `undefined` as `Option`.
* The value of an `<input type="number">` element is either the empty string
  or a decimal numeral; it is modelled as `Option ℚ` with `none` for `""`.
  The code's truthiness test `!d` is `none`-ness, and `d <= 0` is the
  string-to-number coercion of the value compared with `0`.
* `toast.error` / `toast.success` calls are returned as data.
-/

namespace LMS

/-- Model of JavaScript `String.prototype.trim`: strip leading and trailing
whitespace. (Defined over the character list so that the kernel can
evaluate it on literals.) -/
def jsTrim (s : String) : String :=
  ⟨((s.data.dropWhile Char.isWhitespace).reverse.dropWhile Char.isWhitespace).reverse⟩

/-- Model of JavaScript `String.prototype.startsWith`. -/
def jsStartsWith (s pre : String) : Bool :=
  pre.data.isPrefixOf s.data

/-- A lecture record as built by `handleSaveLecture`'s `newLecture` object. -/
structure Lecture where
  lectureId : Nat
  lectureTitle : String
  lectureDuration : ℚ
  lectureUrl : String
  isPreviewFree : Bool
  lectureOrder : Nat
deriving DecidableEq

/-- A chapter record as built by `handleChapter`'s `newChapter` object. -/
structure Chapter where
  chapterId : Nat
  chapterTitle : String
  chapterContent : List Lecture
  collapsed : Bool
  chapterOrder : Nat
deriving DecidableEq

/-- The modal's draft fields (`lectureDetails` state). `lectureDuration` is
the raw value of the duration number input (`none` = empty string). -/
structure LectureDraft where
  lectureTitle : String
  lectureDuration : Option ℚ
  lectureUrl : String
  isPreviewFree : Bool
deriving DecidableEq

/-- The reset value of `lectureDetails`. -/
def emptyLectureDraft : LectureDraft :=
  { lectureTitle := "", lectureDuration := none, lectureUrl := "", isPreviewFree := false }

/-- The parts of a DOM `File` object the component reads: `file.type` and
`file.size` (bytes). -/
structure ImageFile where
  ftype : String
  size : Nat
deriving DecidableEq

/-- The Course Builder's local state (the `useState` hooks of `AddCourse`).
`imagePreview` is the object-URL string, `""` meaning no preview (falsy). -/
structure BuilderState where
  courseTitle : String
  coursePrice : ℚ
  discount : ℚ
  image : Option ImageFile
  imagePreview : String
  chapters : List Chapter
  showPopup : Bool
  currentChapterId : Option Nat
  lectureDetails : LectureDraft
deriving DecidableEq

/-- The initial state of the component. -/
def initialState : BuilderState :=
  { courseTitle := "", coursePrice := 0, discount := 0, image := none, imagePreview := "",
    chapters := [], showPopup := false, currentChapterId := none,
    lectureDetails := emptyLectureDraft }

/-- `handleChapter("add")`: prompts for a title (`none` = cancelled); if the
title is truthy, appends a chapter whose `chapterOrder` is the last chapter's
order plus one (`chapters.slice(-1)[0].chapterOrder + 1`), or `1` if the list
is empty. -/
def handleChapterAdd (st : BuilderState) (title : Option String) (freshId : Nat) :
    BuilderState :=
  match title with
  | none => st
  | some t =>
    if t = "" then st
    else
      let newChapter : Chapter :=
        { chapterId := freshId, chapterTitle := t, chapterContent := [], collapsed := false,
          chapterOrder :=
            match st.chapters.getLast? with
            | some c => c.chapterOrder + 1
            | none => 1 }
      { st with chapters := st.chapters ++ [newChapter] }

/-- `handleChapter("remove", chapterId)`: filters the chapter out; no
renumbering of the remaining chapters' `chapterOrder`. -/
def handleChapterRemove (st : BuilderState) (chapterId : Nat) : BuilderState :=
  { st with chapters := st.chapters.filter (fun c => c.chapterId ≠ chapterId) }

/-- `handleChapter("toggle", chapterId)`: flips the `collapsed` flag of the
matching chapter. -/
def handleChapterToggle (st : BuilderState) (chapterId : Nat) : BuilderState :=
  { st with chapters := st.chapters.map (fun c =>
      if c.chapterId = chapterId then { c with collapsed := !c.collapsed } else c) }

/-- `handleLecture("add", chapterId)`: binds the modal to the chapter and
opens it. -/
def handleLectureAdd (st : BuilderState) (chapterId : Nat) : BuilderState :=
  { st with currentChapterId := some chapterId, showPopup := true }

/-- The `updatedContent.forEach((lecture, index) => lecture.lectureOrder = index + 1)`
renumbering loop, started at `n`. -/
def renumberFrom (n : Nat) : List Lecture → List Lecture
  | [] => []
  | lec :: rest => { lec with lectureOrder := n } :: renumberFrom (n + 1) rest

/-- `handleLecture("remove", chapterId, lectureIndex)`: in the matching
chapter, `splice(lectureIndex, 1)` (which removes nothing when the index is
out of range, as `List.eraseIdx` does) and then renumber the survivors
`1..N`. -/
def handleLectureRemove (st : BuilderState) (chapterId : Nat) (lectureIndex : Nat) :
    BuilderState :=
  { st with chapters := st.chapters.map (fun ch =>
      if ch.chapterId = chapterId then
        { ch with chapterContent := renumberFrom 1 (ch.chapterContent.eraseIdx lectureIndex) }
      else ch) }

/-- Outcome of one `handleSaveLecture` call, as observable behaviour:
either the guard `if (!currentChapterId) return` fired, or a `toast.error`
with the given message was shown and the handler returned, or the lecture
was saved. -/
inductive SaveOutcome where
  | noChapter
  | fieldError (msg : String)
  | saved
deriving DecidableEq

/-- The duration check `!lectureDetails.lectureDuration || lectureDetails.lectureDuration <= 0`:
the empty string is falsy, and a numeric string compares with `0` by
string-to-number coercion. -/
def durationInvalid : Option ℚ → Bool
  | none => true
  | some q => decide (q ≤ 0)

/-- `handleSaveLecture`: validates title (trimmed non-empty), duration
(truthy and `> 0`), URL (trimmed non-empty) in that order; the first failure
shows its message and leaves all state unchanged. On success it appends a
lecture with `lectureOrder = chapterContent.length + 1` to every chapter
matching `currentChapterId`, closes the popup, unbinds the chapter id and
resets the draft fields. -/
def handleSaveLecture (st : BuilderState) (freshId : Nat) : BuilderState × SaveOutcome :=
  match st.currentChapterId with
  | none => (st, .noChapter)
  | some cid =>
    if jsTrim st.lectureDetails.lectureTitle = "" then
      (st, .fieldError "Please enter lecture title")
    else if durationInvalid st.lectureDetails.lectureDuration then
      (st, .fieldError "Please enter valid lecture duration")
    else if jsTrim st.lectureDetails.lectureUrl = "" then
      (st, .fieldError "Please enter lecture URL")
    else
      let updatedChapters := st.chapters.map (fun ch =>
        if ch.chapterId = cid then
          { ch with chapterContent := ch.chapterContent ++
              [{ lectureId := freshId,
                 lectureTitle := jsTrim st.lectureDetails.lectureTitle,
                 lectureDuration := st.lectureDetails.lectureDuration.getD 0,
                 lectureUrl := jsTrim st.lectureDetails.lectureUrl,
                 isPreviewFree := st.lectureDetails.isPreviewFree,
                 lectureOrder := ch.chapterContent.length + 1 }] }
        else ch)
      ({ st with chapters := updatedChapters, showPopup := false,
                 currentChapterId := none, lectureDetails := emptyLectureDraft },
       .saved)

/-- Outcome of one `handleImageChange` call. -/
inductive ImageOutcome where
  | noFile
  | typeError
  | sizeError
  | accepted
deriving DecidableEq

/-- `handleImageChange`: if a file was picked, reject unless its MIME type
starts with `image/` and its size is at most `5 * 1024 * 1024` bytes; on
accept, store the file, revoke the previous object URL if one existed
(`if (imagePreview) URL.revokeObjectURL(imagePreview)`) and store a fresh
one. Returns the new state, the list of revoked object URLs, and the
outcome. -/
def handleImageChange (st : BuilderState) (file : Option ImageFile) (freshUrl : String) :
    BuilderState × List String × ImageOutcome :=
  match file with
  | none => (st, [], .noFile)
  | some f =>
    if !(jsStartsWith f.ftype "image/") then (st, [], .typeError)
    else if f.size > 5 * 1024 * 1024 then (st, [], .sizeError)
    else
      let revoked := if st.imagePreview ≠ "" then [st.imagePreview] else []
      ({ st with image := some f, imagePreview := freshUrl }, revoked, .accepted)

/-- The `courseData` object serialized into the multipart POST body. -/
structure CourseData where
  courseTitle : String
  courseDescription : String
  coursePrice : ℚ
  discount : ℚ
  courseContent : List Chapter
deriving DecidableEq

/-- What `handleSubmit` does up to (and excluding) the network call: either
abort with a `toast.error` message — issuing no request — or POST the
payload. -/
inductive SubmitAction where
  | abort (msg : String)
  | post (payload : CourseData) (image : ImageFile)
deriving DecidableEq

/-- The validation prefix of `handleSubmit`, checking in source order:
trimmed title non-empty, image present, Quill editor present with trimmed
`root.innerHTML` non-empty (`quillHtml = none` models a missing editor ref),
at least one chapter, and no chapter with empty `chapterContent`. The first
failing check aborts with its message; otherwise the payload is built (with
the untrimmed editor HTML, as in the source). -/
def handleSubmitValidate (st : BuilderState) (quillHtml : Option String) : SubmitAction :=
  if jsTrim st.courseTitle = "" then .abort "Please enter course title"
  else
    match st.image with
    | none => .abort "Please select a course thumbnail"
    | some img =>
      match quillHtml with
      | none => .abort "Please enter course description"
      | some html =>
        if jsTrim html = "" then .abort "Please enter course description"
        else if st.chapters.length = 0 then .abort "Please add at least one chapter"
        else if (st.chapters.filter (fun ch => ch.chapterContent.length = 0)).length > 0 then
          .abort "All chapters must have at least one lecture"
        else
          .post { courseTitle := jsTrim st.courseTitle, courseDescription := html,
                  coursePrice := st.coursePrice, discount := st.discount,
                  courseContent := st.chapters } img

/-- The POST's result as seen by `handleSubmit`: a JSON reply
`{success, message}`, or a thrown error carrying
`error.response?.data?.message` when there is one. -/
inductive PostResponse where
  | reply (success : Bool) (message : String)
  | thrown (dataMessage : Option String)
deriving DecidableEq

/-- A displayed toast. -/
inductive Toast where
  | success (msg : String)
  | error (msg : String)
deriving DecidableEq

/-- The continuation of `handleSubmit` after the POST resolves. On
`data.success`: success toast, reset title/price/discount/image/preview/
chapters, revoke the preview URL if set, and clear the editor HTML
(when the editor ref exists). Otherwise (`success: false` reply, or a
thrown network/server error): error toast only — every piece of draft
state is left as it was. Returns (new state, new editor HTML, revoked
object URLs, toast). -/
def handleSubmitResponse (st : BuilderState) (quillHtml : Option String)
    (r : PostResponse) : BuilderState × Option String × List String × Toast :=
  match r with
  | .reply true msg =>
      ({ st with courseTitle := "", coursePrice := 0, discount := 0,
                 image := none, imagePreview := "", chapters := [] },
       quillHtml.map (fun _ => ""),
       if st.imagePreview ≠ "" then [st.imagePreview] else [],
       .success msg)
  | .reply false msg => (st, quillHtml, [], .error msg)
  | .thrown m => (st, quillHtml, [], .error (m.getD "Failed to add course"))

/-- One user-driven editing step of the Course Builder draft. -/
inductive BuilderOp where
  | chapterAdd (title : Option String) (freshId : Nat)
  | chapterRemove (chapterId : Nat)
  | chapterToggle (chapterId : Nat)
  | lectureAdd (chapterId : Nat)
  | lectureRemove (chapterId : Nat) (index : Nat)
  | editLectureDraft (d : LectureDraft)
  | saveLecture (freshId : Nat)
  | cancelLecturePopup
  | imageChange (file : Option ImageFile) (freshUrl : String)

/-- Apply one editing step (discarding the toast/outcome component). The
`editLectureDraft` op is the modal inputs' `setLectureDetails`, and
`cancelLecturePopup` the Cancel/close handler. -/
def applyOp (st : BuilderState) : BuilderOp → BuilderState
  | .chapterAdd t fid => handleChapterAdd st t fid
  | .chapterRemove cid => handleChapterRemove st cid
  | .chapterToggle cid => handleChapterToggle st cid
  | .lectureAdd cid => handleLectureAdd st cid
  | .lectureRemove cid i => handleLectureRemove st cid i
  | .editLectureDraft d => { st with lectureDetails := d }
  | .saveLecture fid => (handleSaveLecture st fid).1
  | .cancelLecturePopup =>
      { st with showPopup := false, currentChapterId := none,
                lectureDetails := emptyLectureDraft }
  | .imageChange f u => (handleImageChange st f u).1

/-- Run a sequence of editing steps from a state. -/
def runOps (st : BuilderState) (ops : List BuilderOp) : BuilderState :=
  ops.foldl applyOp st

/-! ### The shared application context (`AppContext.jsx`)

The repository carries two revisions of the context provider; the current one
(the revision with the `isSignedIn` wiring and the 404-synthesis branch) is
the one embedded here. Fetched JSON is dynamic, so every field that may be
absent is an `Option`. -/

/-- One entry of a course's `courseRatings` array (only `r.rating` is read). -/
structure RatingEntry where
  rating : ℚ
deriving DecidableEq

/-- One entry of a chapter's `chapterContent` array as fetched from the
backend (only `lectureDuration` is ever read by the helpers). -/
structure LectureDoc where
  lectureDuration : ℚ
deriving DecidableEq

/-- A fetched chapter; `chapterContent` may be absent. -/
structure ChapterDoc where
  chapterContent : Option (List LectureDoc)
deriving DecidableEq

/-- A fetched course; `courseRatings` and `courseContent` may be absent. -/
structure CourseDoc where
  courseRatings : Option (List RatingEntry)
  courseContent : Option (List ChapterDoc)
deriving DecidableEq

/-- JavaScript `x.toFixed(1)`, as the rational value of the produced decimal
string: the multiple of `1/10` nearest to `x`, ties to the larger. -/
def jsToFixed1 (q : ℚ) : ℚ :=
  (⌊q * 10 + 1 / 2⌋ : ℤ) / 10

/-- `calculateRating(course)`: `0` when `course?.courseRatings?.length` is
falsy (no course, no ratings array, or empty array); otherwise the reduce-sum
of the ratings divided by their count, `toFixed(1)`. -/
def calculateRating (course : Option CourseDoc) : ℚ :=
  match course with
  | none => 0
  | some c =>
    match c.courseRatings with
    | none => 0
    | some rs =>
      if rs.length = 0 then 0
      else jsToFixed1 ((rs.foldl (fun sum r => sum + r.rating) 0) / rs.length)

/-- `calculateNoOfLectures(course)`: the optional chain
`course?.courseContent?.reduce(...)` yields `undefined` (here `none`) when
the course or its `courseContent` is absent; otherwise it reduces with
`sum + (chapter?.chapterContent?.length || 0)` from `0`. -/
def calculateNoOfLectures (course : Option CourseDoc) : Option Nat :=
  match course with
  | none => none
  | some c =>
    match c.courseContent with
    | none => none
    | some chs =>
      some (chs.foldl
        (fun sum ch => sum + (ch.chapterContent.map List.length).getD 0) 0)

/-- The session claims `fetchUserData` reads off the Clerk `user` object:
`user.id`, `user.emailAddresses?.[0]?.emailAddress`, `user.firstName`,
`user.lastName`. -/
structure UserClaims where
  id : String
  email : Option String
  firstName : Option String
  lastName : Option String
deriving DecidableEq

/-- The user profile object stored in the `userData` state. -/
structure UserData where
  clerkId : String
  email : Option String
  firstName : Option String
  lastName : Option String
  enrolledCourses : List String
deriving DecidableEq

/-- The minimal local profile `fetchUserData` synthesizes from the session
claims. -/
def localUserData (u : UserClaims) : UserData :=
  { clerkId := u.id, email := u.email, firstName := u.firstName,
    lastName := u.lastName, enrolledCourses := [] }

/-- How the `GET /api/user/data` request resolves: a 2xx JSON reply
`{success, user}`, or a failure whose `error.response?.status` is `status`
(`none` when the request never got a response), with the optional
`error.response?.data?.message` and `error.message` strings. -/
inductive UserFetchOutcome where
  | reply (success : Bool) (user : Option UserData)
  | failure (status : Option Nat) (dataMessage : Option String) (errorMessage : Option String)
deriving DecidableEq

/-- `fetchUserData` (current revision): given the signed-in user claims, the
token `getToken()` resolves to, the request outcome and the previous
`userData`, returns the new `userData`, the toasts shown, and the final
`userDataLoading` flag. Early-outs: no user → skip; no token → auth toast.
2xx with `success && user` → store the server profile; any other 2xx body →
synthesize a local profile. Caught errors: 401 → auth toast and clear
profile; 404 → synthesize a local profile, no toast; anything else → error
toast (`data.message || error.message || fallback`), profile untouched. The
`finally` block always ends with loading `false`. -/
def fetchUserData (user : Option UserClaims) (token : Option String)
    (outcome : UserFetchOutcome) (prev : Option UserData) :
    Option UserData × List Toast × Bool :=
  match user with
  | none => (prev, [], false)
  | some u =>
    match token with
    | none => (prev, [.error "Authentication failed. Please login again."], false)
    | some _ =>
      match outcome with
      | .reply true (some srv) => (some srv, [], false)
      | .reply true none => (some (localUserData u), [], false)
      | .reply false _ => (some (localUserData u), [], false)
      | .failure status dm em =>
          if status = some 401 then
            (none, [.error "Authentication failed. Please login again."], false)
          else if status = some 404 then
            (some (localUserData u), [], false)
          else
            (prev, [.error (dm.getD (em.getD "Failed to load user profile"))], false)

/-! ### Invariants of the chapter/lecture bookkeeping -/

/-- The lecture sequence numbers of a content list are exactly `1..N` in
list order. -/
def lectureOrdersOk (l : List Lecture) : Prop :=
  l.map Lecture.lectureOrder = List.range' 1 l.length

/-- Every chapter of a list has contiguous lecture sequence numbers. -/
def chaptersOk (cs : List Chapter) : Prop :=
  ∀ ch ∈ cs, lectureOrdersOk ch.chapterContent

theorem renumberFrom_map_order :
    ∀ (l : List Lecture) (n : Nat),
      (renumberFrom n l).map Lecture.lectureOrder = List.range' n l.length
  | [], _ => rfl
  | lec :: rest, n => by
    simp only [renumberFrom, List.map_cons, List.length_cons, List.range'_succ,
      renumberFrom_map_order rest (n + 1)]

theorem renumberFrom_length :
    ∀ (l : List Lecture) (n : Nat), (renumberFrom n l).length = l.length
  | [], _ => rfl
  | _ :: rest, n => by
    simp only [renumberFrom, List.length_cons, renumberFrom_length rest (n + 1)]

theorem lectureOrdersOk_renumberFrom (l : List Lecture) :
    lectureOrdersOk (renumberFrom 1 l) := by
  unfold lectureOrdersOk
  rw [renumberFrom_map_order, renumberFrom_length]

theorem lectureOrdersOk_append {l : List Lecture} {x : Lecture}
    (h : lectureOrdersOk l) (hx : x.lectureOrder = l.length + 1) :
    lectureOrdersOk (l ++ [x]) := by
  unfold lectureOrdersOk at h ⊢
  rw [List.map_append, List.length_append, h, List.map_cons, List.map_nil,
    List.length_cons, List.length_nil, List.range'_1_concat, hx, Nat.add_comm 1 l.length]

theorem chaptersOk_applyOp {st : BuilderState} (h : chaptersOk st.chapters)
    (op : BuilderOp) : chaptersOk (applyOp st op).chapters := by
  cases op with
  | chapterAdd t fid =>
    cases t with
    | none => exact h
    | some s =>
      show chaptersOk (if s = "" then st else _).chapters
      split
      · exact h
      · intro ch hch
        rcases List.mem_append.1 hch with h1 | h1
        · exact h ch h1
        · rw [List.mem_singleton.1 h1]
          rfl
  | chapterRemove cid =>
    exact fun ch hch => h ch (List.mem_filter.1 hch).1
  | chapterToggle cid =>
    intro ch hch
    obtain ⟨a, ha, rfl⟩ := List.mem_map.1 hch
    by_cases hid : a.chapterId = cid
    · simpa [hid] using h a ha
    · simpa [hid] using h a ha
  | lectureAdd cid => exact h
  | lectureRemove cid i =>
    intro ch hch
    obtain ⟨a, ha, rfl⟩ := List.mem_map.1 hch
    by_cases hid : a.chapterId = cid
    · simpa [hid] using lectureOrdersOk_renumberFrom (a.chapterContent.eraseIdx i)
    · simpa [hid] using h a ha
  | editLectureDraft d => exact h
  | saveLecture fid =>
    show chaptersOk (handleSaveLecture st fid).1.chapters
    unfold handleSaveLecture
    cases st.currentChapterId with
    | none => exact h
    | some cid =>
      dsimp only
      split
      · exact h
      · split
        · exact h
        · split
          · exact h
          · intro ch hch
            obtain ⟨a, ha, rfl⟩ := List.mem_map.1 hch
            by_cases hid : a.chapterId = cid
            · simpa [hid] using lectureOrdersOk_append (h a ha) rfl
            · simpa [hid] using h a ha
  | cancelLecturePopup => exact h
  | imageChange f u =>
    show chaptersOk (handleImageChange st f u).1.chapters
    unfold handleImageChange
    cases f with
    | none => exact h
    | some f0 =>
      dsimp only
      split
      · exact h
      · split
        · exact h
        · exact h

theorem chaptersOk_runOps {st : BuilderState} (h : chaptersOk st.chapters)
    (ops : List BuilderOp) : chaptersOk (runOps st ops).chapters := by
  induction ops generalizing st with
  | nil => exact h
  | cons op rest ih => exact ih (chaptersOk_applyOp h op)

/-- The chapter sequence numbers of a list are strictly increasing in list
order (not necessarily contiguous). -/
def chapterOrdersIncreasing (cs : List Chapter) : Prop :=
  List.Pairwise (· < ·) (cs.map Chapter.chapterOrder)

theorem pairwise_lt_le_getLast :
    ∀ {l : List Nat} {m : Nat}, l.Pairwise (· < ·) → l.getLast? = some m →
      ∀ a ∈ l, a ≤ m
  | [], _, _, hm => by simp at hm
  | [b], _, _, hm => by
    intro a ha
    rw [List.mem_singleton.1 ha]
    simp only [List.getLast?_singleton, Option.some.injEq] at hm
    omega
  | b :: c :: t, m, hp, hm => by
    rw [List.getLast?_cons_cons] at hm
    intro a ha
    rcases List.mem_cons.1 ha with rfl | ha2
    · exact Nat.le_of_lt
        (List.rel_of_pairwise_cons hp (List.mem_of_getLast?_eq_some hm))
    · exact pairwise_lt_le_getLast (List.pairwise_cons.1 hp).2 hm a ha2

theorem chapterOrdersIncreasing_map_of_preserving (cs : List Chapter)
    (g : Chapter → Chapter) (hg : ∀ c, (g c).chapterOrder = c.chapterOrder)
    (h : chapterOrdersIncreasing cs) : chapterOrdersIncreasing (cs.map g) := by
  unfold chapterOrdersIncreasing at h ⊢
  rw [List.map_map]
  have hcomp : ∀ a ∈ cs, (Chapter.chapterOrder ∘ g) a = Chapter.chapterOrder a :=
    fun a _ => hg a
  rw [List.map_congr_left hcomp]
  exact h

theorem chapterOrdersIncreasing_applyOp {st : BuilderState}
    (h : chapterOrdersIncreasing st.chapters) (op : BuilderOp) :
    chapterOrdersIncreasing (applyOp st op).chapters := by
  cases op with
  | chapterAdd t fid =>
    cases t with
    | none => exact h
    | some s =>
      show chapterOrdersIncreasing (if s = "" then st else _).chapters
      split
      · exact h
      · unfold chapterOrdersIncreasing at h ⊢
        rw [List.map_append, List.pairwise_append]
        refine ⟨h, List.pairwise_singleton _ _, ?_⟩
        intro a ha b hb
        simp only [List.map_cons, List.map_nil, List.mem_singleton] at hb
        subst hb
        cases hl : st.chapters.getLast? with
        | none =>
          rw [List.getLast?_eq_none_iff.1 hl] at ha
          simp at ha
        | some c =>
          have hlast : (st.chapters.map Chapter.chapterOrder).getLast? =
              some c.chapterOrder := by
            rw [List.getLast?_map, hl, Option.map_some']
          have := pairwise_lt_le_getLast h hlast a ha
          simp only [hl]
          omega
  | chapterRemove cid =>
    exact List.Pairwise.sublist
      (List.Sublist.map Chapter.chapterOrder (List.filter_sublist st.chapters)) h
  | chapterToggle cid =>
    refine chapterOrdersIncreasing_map_of_preserving st.chapters _ ?_ h
    intro c
    by_cases hid : c.chapterId = cid <;> simp [hid]
  | lectureAdd cid => exact h
  | lectureRemove cid i =>
    refine chapterOrdersIncreasing_map_of_preserving st.chapters _ ?_ h
    intro c
    by_cases hid : c.chapterId = cid <;> simp [hid]
  | editLectureDraft d => exact h
  | saveLecture fid =>
    show chapterOrdersIncreasing (handleSaveLecture st fid).1.chapters
    unfold handleSaveLecture
    cases st.currentChapterId with
    | none => exact h
    | some cid =>
      dsimp only
      split
      · exact h
      · split
        · exact h
        · split
          · exact h
          · refine chapterOrdersIncreasing_map_of_preserving st.chapters _ ?_ h
            intro c
            by_cases hid : c.chapterId = cid <;> simp [hid]
  | cancelLecturePopup => exact h
  | imageChange f u =>
    show chapterOrdersIncreasing (handleImageChange st f u).1.chapters
    unfold handleImageChange
    cases f with
    | none => exact h
    | some f0 =>
      dsimp only
      split
      · exact h
      · split
        · exact h
        · exact h

theorem chapterOrdersIncreasing_runOps {st : BuilderState}
    (h : chapterOrdersIncreasing st.chapters) (ops : List BuilderOp) :
    chapterOrdersIncreasing (runOps st ops).chapters := by
  induction ops generalizing st with
  | nil => exact h
  | cons op rest ih => exact ih (chapterOrdersIncreasing_applyOp h op)

/-! ## The claims -/

/-- Claim C1: for every sequence of Course Builder editing operations from
the empty draft (in particular every sequence of `saveLecture` and
`removeLecture` steps), the `lectureOrder` values of the lectures remaining
in any chapter's content list are exactly `1..N` in list order, with no
gaps: removal renumbers the survivors and append assigns
`sequence = current length + 1`. -/
theorem c1_lecture_orders_contiguous (ops : List BuilderOp) (ch : Chapter)
    (hch : ch ∈ (runOps initialState ops).chapters) :
    ch.chapterContent.map Lecture.lectureOrder =
      List.range' 1 ch.chapterContent.length :=
  chaptersOk_runOps (by intro c hc; simp [initialState] at hc) ops ch hch

/-- A concrete run for the C1 witness: one chapter, two saved lectures, then
removal of the first lecture. -/
def c1WitnessOps : List BuilderOp :=
  [.chapterAdd (some "Basics") 1, .lectureAdd 1,
   .editLectureDraft { lectureTitle := "Intro", lectureDuration := some 5,
                       lectureUrl := "http://v/1", isPreviewFree := false },
   .saveLecture 2, .lectureAdd 1,
   .editLectureDraft { lectureTitle := "Setup", lectureDuration := some 3,
                       lectureUrl := "http://v/2", isPreviewFree := true },
   .saveLecture 3, .lectureRemove 1 0]

/-- The chapter produced by `c1WitnessOps`: the surviving lecture has been
renumbered to `lectureOrder = 1`. -/
def c1WitnessChapter : Chapter :=
  { chapterId := 1, chapterTitle := "Basics",
    chapterContent := [{ lectureId := 3, lectureTitle := "Setup",
                         lectureDuration := 3, lectureUrl := "http://v/2",
                         isPreviewFree := true, lectureOrder := 1 }],
    collapsed := false, chapterOrder := 1 }

/-- Witness for C1 at a concrete run. -/
theorem c1_witness :
    c1WitnessChapter ∈ (runOps initialState c1WitnessOps).chapters ∧
    c1WitnessChapter.chapterContent.map Lecture.lectureOrder =
      List.range' 1 c1WitnessChapter.chapterContent.length :=
  ⟨by decide, c1_lecture_orders_contiguous c1WitnessOps c1WitnessChapter (by decide)⟩

/-- The run refuting claim C3: add chapter "One" (order 1), add chapter
"Two" (order 2), remove the first chapter. -/
def c3Ops : List BuilderOp :=
  [.chapterAdd (some "One") 1, .chapterAdd (some "Two") 2, .chapterRemove 1]

/-- Counterexample to claim C3: after `addChapter, addChapter, removeChapter`
the surviving chapter keeps `chapterOrder = 2`, so the chapter orders are
`[2]` and not the contiguous `1..N` (`removeChapter` does not renumber). -/
theorem c3_counterexample :
    (runOps initialState c3Ops).chapters.map Chapter.chapterOrder = [2] ∧
    ¬ (runOps initialState c3Ops).chapters.map Chapter.chapterOrder =
        List.range' 1 (runOps initialState c3Ops).chapters.length := by
  decide

/-- The operations claim C3 quantifies over: `handleChapter` with `"add"`
or `"remove"`. -/
def isChapterAddOrRemove : BuilderOp → Bool
  | .chapterAdd _ _ => true
  | .chapterRemove _ => true
  | _ => false

/-- Claim C3 (amended): after any sequence of `addChapter` / `removeChapter`
operations on the draft, the remaining chapters' `chapterOrder` values are
strictly increasing in list order; they are not renumbered on removal, so
they need not be contiguous `1..N`. -/
theorem c3_amended_chapter_orders_increasing (ops : List BuilderOp)
    (_hops : ∀ op ∈ ops, isChapterAddOrRemove op = true) :
    List.Pairwise (· < ·)
      ((runOps initialState ops).chapters.map Chapter.chapterOrder) :=
  chapterOrdersIncreasing_runOps
    (show chapterOrdersIncreasing initialState.chapters from List.Pairwise.nil) ops

/-- Witness for the amended C3 at a concrete add/add/remove run. -/
theorem c3_witness :
    (∀ op ∈ c3Ops, isChapterAddOrRemove op = true) ∧
    List.Pairwise (· < ·)
      ((runOps initialState c3Ops).chapters.map Chapter.chapterOrder) :=
  ⟨by decide, c3_amended_chapter_orders_increasing c3Ops (by decide)⟩

/-- Claim C10: in every draft state reachable by Course Builder editing
operations, the `chapterOrder` values are strictly increasing in list order:
`addChapter` appends with order = last order + 1 (or 1 when empty),
`removeChapter` deletes without reordering, and `toggleChapter` and the
lecture operations never modify `chapterOrder`. -/
theorem c10_chapter_orders_strictly_increasing (ops : List BuilderOp) :
    List.Pairwise (· < ·)
      ((runOps initialState ops).chapters.map Chapter.chapterOrder) :=
  chapterOrdersIncreasing_runOps
    (show chapterOrdersIncreasing initialState.chapters from List.Pairwise.nil) ops

/-- A draft whose title passes validation but which has no thumbnail; the
editor HTML is empty. Claim C2's order (description before thumbnail) would
report the description message here. -/
def c2State : BuilderState :=
  { initialState with courseTitle := "T" }

/-- Counterexample to claim C2: on a draft with a non-empty title, an empty
rendered description and no thumbnail, `handleSubmit` reports the thumbnail
message, not the description message — the code checks the thumbnail before
the description, contrary to the claimed order. -/
theorem c2_counterexample :
    handleSubmitValidate c2State (some "") = .abort "Please select a course thumbnail" ∧
    "Please select a course thumbnail" ≠ "Please enter course description" := by
  decide

/-- Claim C2 (amended): `handleSubmit` validates, in order: non-empty trimmed
course title, thumbnail presence, non-empty rendered description HTML, at
least one chapter, and every chapter having at least one lecture; the first
failing rule is the one reported and no POST is issued (the action is
`abort`, never `post`). With zero chapters and the earlier rules passing,
the reported message is the add-at-least-one-chapter one. -/
theorem c2_amended_submit_validation (st : BuilderState) (q : Option String) :
    (jsTrim st.courseTitle = "" →
      handleSubmitValidate st q = .abort "Please enter course title") ∧
    (jsTrim st.courseTitle ≠ "" → st.image = none →
      handleSubmitValidate st q = .abort "Please select a course thumbnail") ∧
    (jsTrim st.courseTitle ≠ "" → st.image ≠ none →
      (∀ h, q = some h → jsTrim h = "") →
      handleSubmitValidate st q = .abort "Please enter course description") ∧
    (∀ h, jsTrim st.courseTitle ≠ "" → st.image ≠ none → q = some h →
      jsTrim h ≠ "" → st.chapters = [] →
      handleSubmitValidate st q = .abort "Please add at least one chapter") ∧
    (∀ h, jsTrim st.courseTitle ≠ "" → st.image ≠ none → q = some h →
      jsTrim h ≠ "" → st.chapters ≠ [] →
      (∃ ch ∈ st.chapters, ch.chapterContent = []) →
      handleSubmitValidate st q = .abort "All chapters must have at least one lecture") ∧
    (∀ h img, jsTrim st.courseTitle ≠ "" → st.image = some img → q = some h →
      jsTrim h ≠ "" → st.chapters ≠ [] →
      (∀ ch ∈ st.chapters, ch.chapterContent ≠ []) →
      handleSubmitValidate st q =
        .post { courseTitle := jsTrim st.courseTitle, courseDescription := h,
                coursePrice := st.coursePrice, discount := st.discount,
                courseContent := st.chapters } img) ∧
    (∀ msg payload img, handleSubmitValidate st q = .abort msg →
      handleSubmitValidate st q ≠ .post payload img) := by
  refine ⟨?_, ?_, ?_, ?_, ?_, ?_, ?_⟩
  · intro ht
    simp [handleSubmitValidate, ht]
  · intro ht himg
    simp [handleSubmitValidate, ht, himg]
  · intro ht himg hq
    obtain ⟨img, hi⟩ := Option.ne_none_iff_exists'.1 himg
    cases q with
    | none => simp [handleSubmitValidate, ht, hi]
    | some h => simp [handleSubmitValidate, ht, hi, hq h rfl]
  · intro h ht himg hq hh hch
    obtain ⟨img, hi⟩ := Option.ne_none_iff_exists'.1 himg
    subst hq
    simp [handleSubmitValidate, ht, hi, hh, hch]
  · intro h ht himg hq hh hch hex
    obtain ⟨img, hi⟩ := Option.ne_none_iff_exists'.1 himg
    obtain ⟨ch, hmem, hempty⟩ := hex
    subst hq
    have hlen : st.chapters.length ≠ 0 := by
      simp [List.length_eq_zero, hch]
    have hfilter :
        0 < (st.chapters.filter (fun c => c.chapterContent.length = 0)).length := by
      rw [List.length_pos]
      intro hnil
      have := List.filter_eq_nil_iff.1 hnil ch hmem
      simp [hempty] at this
    simp [handleSubmitValidate, ht, hi, hh, hlen, hfilter]
    exact ⟨ch, hmem, hempty⟩
  · intro h img ht himg hq hh hch hall
    subst hq
    have hlen : st.chapters.length ≠ 0 := by
      simp [List.length_eq_zero, hch]
    have hfe : st.chapters.filter (fun c => c.chapterContent.length = 0) = [] := by
      rw [List.filter_eq_nil_iff]
      intro c hm
      simp [List.length_eq_zero, hall c hm]
    simp [handleSubmitValidate, ht, himg, hh, hlen, hfe]
    exact hall
  · intro msg payload img habort
    rw [habort]
    exact fun hcontra => nomatch hcontra

/-- A draft that passes every rule up to the chapter check but has zero
chapters. -/
def c2NoChapterState : BuilderState :=
  { initialState with
      courseTitle := "T"
      image := some { ftype := "image/png", size := 1000 } }

/-- Witness for the amended C2: with zero chapters and the earlier rules
passing, the add-at-least-one-chapter message is reported. -/
theorem c2_witness :
    (jsTrim c2NoChapterState.courseTitle ≠ "" ∧ c2NoChapterState.image ≠ none ∧
      jsTrim "<p>d</p>" ≠ "" ∧ c2NoChapterState.chapters = []) ∧
    handleSubmitValidate c2NoChapterState (some "<p>d</p>") =
      .abort "Please add at least one chapter" :=
  ⟨by decide,
   (c2_amended_submit_validation c2NoChapterState (some "<p>d</p>")).2.2.2.1
     "<p>d</p>" (by decide) (by decide) rfl (by decide) (by decide)⟩

/-- Claim C4: when `handleSubmit` passes client-side validation but the POST
fails (a `success: false` reply, or a thrown network/server error), an error
message is surfaced and the entire draft state — title, price, discount,
image, preview, chapters — and the editor content are preserved unchanged
for retry, and no preview resource is revoked. -/
theorem c4_failed_post_preserves_draft (st : BuilderState) (q : Option String)
    (r : PostResponse) (hfail : ∀ m, r ≠ .reply true m) :
    (handleSubmitResponse st q r).1 = st ∧
    (handleSubmitResponse st q r).2.1 = q ∧
    (handleSubmitResponse st q r).2.2.1 = [] ∧
    ∃ m, (handleSubmitResponse st q r).2.2.2 = .error m := by
  cases r with
  | reply success msg =>
    cases success with
    | true => exact absurd rfl (hfail msg)
    | false => exact ⟨rfl, rfl, rfl, msg, rfl⟩
  | thrown m => exact ⟨rfl, rfl, rfl, m.getD "Failed to add course", rfl⟩

/-- Witness for C4 at a concrete `success: false` reply. -/
theorem c4_witness :
    (∀ m, PostResponse.reply false "invalid course" ≠ PostResponse.reply true m) ∧
    ((handleSubmitResponse initialState (some "<p>d</p>") (.reply false "invalid course")).1 =
        initialState ∧
      (handleSubmitResponse initialState (some "<p>d</p>") (.reply false "invalid course")).2.1 =
        some "<p>d</p>" ∧
      (handleSubmitResponse initialState (some "<p>d</p>") (.reply false "invalid course")).2.2.1 =
        [] ∧
      ∃ m, (handleSubmitResponse initialState (some "<p>d</p>")
          (.reply false "invalid course")).2.2.2 = .error m) :=
  ⟨by intro m hm; simp at hm,
   c4_failed_post_preserves_draft initialState (some "<p>d</p>")
     (.reply false "invalid course") (by intro m hm; simp at hm)⟩

/-- Claim C5: with the modal bound to a chapter id, `handleSaveLecture`
rejects an empty (or whitespace-only) title, a non-positive or empty
duration, or an empty URL with the field-specific message, leaving the whole
state (chapters, open modal) unchanged; when validation passes it appends
exactly one lecture with `lectureOrder = current length + 1` to each chapter
matching the bound id, leaves all other chapters unchanged, closes the
modal, unbinds the chapter id and clears the draft fields. -/
theorem c5_saveLecture_validation (st : BuilderState) (cid : Nat) (fid : Nat)
    (hcid : st.currentChapterId = some cid) :
    (jsTrim st.lectureDetails.lectureTitle = "" →
      handleSaveLecture st fid = (st, .fieldError "Please enter lecture title")) ∧
    (jsTrim st.lectureDetails.lectureTitle ≠ "" →
      durationInvalid st.lectureDetails.lectureDuration = true →
      handleSaveLecture st fid = (st, .fieldError "Please enter valid lecture duration")) ∧
    (jsTrim st.lectureDetails.lectureTitle ≠ "" →
      durationInvalid st.lectureDetails.lectureDuration = false →
      jsTrim st.lectureDetails.lectureUrl = "" →
      handleSaveLecture st fid = (st, .fieldError "Please enter lecture URL")) ∧
    (jsTrim st.lectureDetails.lectureTitle ≠ "" →
      durationInvalid st.lectureDetails.lectureDuration = false →
      jsTrim st.lectureDetails.lectureUrl ≠ "" →
      (handleSaveLecture st fid).2 = .saved ∧
      (handleSaveLecture st fid).1.showPopup = false ∧
      (handleSaveLecture st fid).1.currentChapterId = none ∧
      (handleSaveLecture st fid).1.lectureDetails = emptyLectureDraft ∧
      List.Forall₂ (fun old new =>
          (old.chapterId ≠ cid → new = old) ∧
          (old.chapterId = cid →
            new.chapterContent = old.chapterContent ++
              [{ lectureId := fid,
                 lectureTitle := jsTrim st.lectureDetails.lectureTitle,
                 lectureDuration := st.lectureDetails.lectureDuration.getD 0,
                 lectureUrl := jsTrim st.lectureDetails.lectureUrl,
                 isPreviewFree := st.lectureDetails.isPreviewFree,
                 lectureOrder := old.chapterContent.length + 1 }]))
        st.chapters (handleSaveLecture st fid).1.chapters) := by
  refine ⟨?_, ?_, ?_, ?_⟩
  · intro h1
    simp [handleSaveLecture, hcid, h1]
  · intro h1 h2
    simp [handleSaveLecture, hcid, h1, h2]
  · intro h1 h2 h3
    simp [handleSaveLecture, hcid, h1, h2, h3]
  · intro h1 h2 h3
    refine ⟨?_, ?_, ?_, ?_, ?_⟩
    · simp [handleSaveLecture, hcid, h1, h2, h3]
    · simp [handleSaveLecture, hcid, h1, h2, h3]
    · simp [handleSaveLecture, hcid, h1, h2, h3]
    · simp [handleSaveLecture, hcid, h1, h2, h3]
    · simp only [handleSaveLecture, hcid, h1, h2, h3, Bool.false_eq_true, if_false]
      rw [List.forall₂_map_right_iff, List.forall₂_same]
      intro a _
      constructor
      · intro hne
        simp [hne]
      · intro heq
        simp [heq]

/-- A concrete state with one empty chapter, the modal bound to it, and a
valid lecture draft. -/
def c5State : BuilderState :=
  { initialState with
      chapters := [{ chapterId := 7, chapterTitle := "A", chapterContent := [],
                     collapsed := false, chapterOrder := 1 }]
      showPopup := true
      currentChapterId := some 7
      lectureDetails := { lectureTitle := " Intro ", lectureDuration := some 5,
                          lectureUrl := "http://v", isPreviewFree := true } }

/-- Witness for C5: saving a valid lecture draft into `c5State`. -/
theorem c5_witness :
    (c5State.currentChapterId = some 7 ∧
      jsTrim c5State.lectureDetails.lectureTitle ≠ "" ∧
      durationInvalid c5State.lectureDetails.lectureDuration = false ∧
      jsTrim c5State.lectureDetails.lectureUrl ≠ "") ∧
    (handleSaveLecture c5State 9).2 = .saved ∧
    (handleSaveLecture c5State 9).1.showPopup = false ∧
    (handleSaveLecture c5State 9).1.currentChapterId = none ∧
    (handleSaveLecture c5State 9).1.lectureDetails = emptyLectureDraft := by
  have h := (c5_saveLecture_validation c5State 7 9 rfl).2.2.2
    (by decide) (by decide) (by decide)
  exact ⟨⟨rfl, by decide, by decide, by decide⟩, h.1, h.2.1, h.2.2.1, h.2.2.2.1⟩

/-- Claim C6: `handleImageChange` rejects a file whose MIME type does not
start with `image/`, or whose size exceeds 5 MB (`5 * 1024 * 1024` bytes),
leaving the stored image and preview unchanged and revoking nothing; on
accepting a valid file it stores the file, releases the previously created
preview exactly once when one existed (and nothing otherwise), and stores
the fresh preview URL. -/
theorem c6_thumbnail_validation (st : BuilderState) (f : ImageFile) (u : String) :
    (jsStartsWith f.ftype "image/" = false →
      handleImageChange st (some f) u = (st, [], .typeError)) ∧
    (jsStartsWith f.ftype "image/" = true → f.size > 5 * 1024 * 1024 →
      handleImageChange st (some f) u = (st, [], .sizeError)) ∧
    (jsStartsWith f.ftype "image/" = true → f.size ≤ 5 * 1024 * 1024 →
      handleImageChange st (some f) u =
        ({ st with image := some f, imagePreview := u },
         if st.imagePreview ≠ "" then [st.imagePreview] else [],
         .accepted)) := by
  refine ⟨?_, ?_, ?_⟩
  · intro h1
    simp [handleImageChange, h1]
  · intro h1 h2
    simp [handleImageChange, h1, h2]
  · intro h1 h2
    simp [handleImageChange, h1, Nat.not_lt.2 h2]

/-- A draft state that already holds a preview resource. -/
def c6State : BuilderState :=
  { initialState with imagePreview := "blob:old" }

/-- Witness for C6: a 2 MB PNG replaces the existing preview and the old
preview handle is revoked exactly once. -/
theorem c6_witness :
    (jsStartsWith "image/png" "image/" = true ∧
      (2 * 1024 * 1024 : Nat) ≤ 5 * 1024 * 1024) ∧
    handleImageChange c6State (some { ftype := "image/png", size := 2 * 1024 * 1024 })
        "blob:new" =
      ({ c6State with
          image := some { ftype := "image/png", size := 2 * 1024 * 1024 }
          imagePreview := "blob:new" },
       ["blob:old"], .accepted) := by
  have h := (c6_thumbnail_validation c6State
    { ftype := "image/png", size := 2 * 1024 * 1024 } "blob:new").2.2
    (by decide) (by decide)
  exact ⟨⟨by decide, by decide⟩, h.trans (by decide)⟩

/-- Summing a mapped value with `reduce`-style `foldl` from an accumulator. -/
theorem foldl_add_map {α M : Type*} [AddCommMonoid M] (f : α → M) :
    ∀ (l : List α) (c : M), l.foldl (fun s a => s + f a) c = c + (l.map f).sum
  | [], c => by simp
  | a :: t, c => by
    simp only [List.foldl_cons, List.map_cons, List.sum_cons,
      foldl_add_map f t (c + f a)]
    rw [add_assoc]

/-- Claim C7: `calculateRating` computes the ratings' sum divided by their
count, rounded to one decimal (`toFixed(1)`), for a course with at least one
rating, and returns `0` for a missing course, a missing ratings array, or an
empty one; on ratings `[3,4,5]` it returns `4.0`. -/
theorem c7_calculateRating :
    calculateRating (some { courseRatings := some [⟨3⟩, ⟨4⟩, ⟨5⟩], courseContent := none }) = 4 ∧
    calculateRating none = 0 ∧
    (∀ cc, calculateRating (some { courseRatings := none, courseContent := cc }) = 0) ∧
    (∀ cc, calculateRating (some { courseRatings := some [], courseContent := cc }) = 0) ∧
    (∀ r rs cc,
      calculateRating (some { courseRatings := some (r :: rs), courseContent := cc }) =
        jsToFixed1 ((((r :: rs).map RatingEntry.rating).sum) / (((r :: rs).length : ℕ) : ℚ))) := by
  refine ⟨?_, rfl, fun cc => rfl, fun cc => rfl, ?_⟩
  · show jsToFixed1 ((((0 : ℚ) + 3 + 4 + 5)) / ((3 : ℕ) : ℚ)) = 4
    norm_num [jsToFixed1]
  · intro r rs cc
    simp only [calculateRating, List.length_cons]
    rw [if_neg (Nat.succ_ne_zero rs.length)]
    rw [foldl_add_map RatingEntry.rating (r :: rs) 0, zero_add]

/-- Counterexample to claim C8: on a course whose `courseContent` is absent,
`calculateNoOfLectures` returns `undefined` (`none`), not zero — the
optional chain `course?.courseContent?.reduce(...)` has no final `|| 0`
fallback. -/
theorem c8_counterexample :
    calculateNoOfLectures (some { courseRatings := none, courseContent := none }) = none ∧
    calculateNoOfLectures (some { courseRatings := none, courseContent := none }) ≠ some 0 := by
  decide

/-- Claim C8 (amended): `calculateNoOfLectures` yields `undefined` (`none`)
when the course or its `courseContent` array is absent; when `courseContent`
is present it returns the sum of the chapters' lecture-list lengths, a
chapter with absent `chapterContent` contributing zero. -/
theorem c8_amended_lecture_count :
    calculateNoOfLectures none = none ∧
    (∀ cr, calculateNoOfLectures (some { courseRatings := cr, courseContent := none }) = none) ∧
    (∀ cr chs, calculateNoOfLectures (some { courseRatings := cr, courseContent := some chs }) =
      some ((chs.map (fun ch => (ch.chapterContent.map List.length).getD 0)).sum)) := by
  refine ⟨rfl, fun cr => rfl, fun cr chs => ?_⟩
  simp only [calculateNoOfLectures, Option.some.injEq]
  rw [foldl_add_map (fun ch : ChapterDoc => (ch.chapterContent.map List.length).getD 0) chs 0]
  rw [Nat.zero_add]

/-- Claim C9: `fetchUserData` with an authenticated session and a token,
when the backend responds 404, does not fail: it stores the minimal local
profile synthesized from the session claims (id, email, first/last name,
empty enrollment list) and shows no error; when the backend responds 401 it
clears the profile and shows the re-login notification. -/
theorem c9_fetchUserData_404_401 (u : UserClaims) (t : String) (prev : Option UserData) :
    (∀ dm em, fetchUserData (some u) (some t) (.failure (some 404) dm em) prev =
      (some (localUserData u), [], false)) ∧
    (∀ dm em, fetchUserData (some u) (some t) (.failure (some 401) dm em) prev =
      (none, [.error "Authentication failed. Please login again."], false)) := by
  constructor
  · intro dm em
    simp [fetchUserData]
  · intro dm em
    simp [fetchUserData]

end LMS
